import Mathlib

/-!
Shallow embedding of `src/base/c/hsgclosure.c` (the haskell-gi ownership
bridging shim between the GHC runtime and the GLib object system).

Modelling conventions:
* Pointers/handles are `Nat`; the handle `0` is the NULL pointer.
* `GType` tags are `Nat`.
* Process state is the structure `Mem`: the `HASKELL_GI_DEBUG_MEM`
  environment toggle, the `static` debug-flag cache of
  `print_debug_info`, the pending GLib idle queue, per-handle reference
  counts and floating flags, the set of live `BoxedFreeInfo` records,
  and append-only call logs recording every invocation of the external
  primitives `g_object_unref`, `g_boxed_free`, `g_object_ref_sink` and
  `freeHaskellFunctionPtr` (so that "invoked exactly once" is a statement
  about a log, not an inference from a reference count).
* Each C function becomes a state transformer that also emits a trace of
  `Event`s: `Event.lock` / `Event.unlock` for `pthread_mutex_lock` /
  `pthread_mutex_unlock` on the recursive `log_mutex`, and `Event.write s`
  for each write to `stderr` (`fwrite` / `vfprintf` / `fprintf`).
* Queries answered by the external GLib type system
  (`G_TYPE_CHECK_INSTANCE_TYPE`, `G_IS_INITIALLY_UNOWNED`,
  `G_TYPE_FROM_INSTANCE`, `g_type_name`, and whether construction of a
  given type yields a floating reference) are fields of the opaque
  parameter `TypeSys`.
-/

/-- An observable action on the shared logging resources: acquiring or
releasing the recursive `log_mutex`, or writing a string to `stderr`. -/
inductive Event where
  | lock : Event
  | unlock : Event
  | write : String → Event
deriving DecidableEq

/-- A pending one-shot task on the GLib idle queue, as submitted by
`g_idle_add`: either `g_object_unref_in_main_loop` applied to an object
handle, or `main_loop_boxed_free_helper` applied to a `BoxedFreeInfo`
record (modelled by its allocation id together with the `gtype` and
`boxed` fields stored in it, which no code mutates after allocation). -/
inductive IdleTask where
  | unref : Nat → IdleTask
  | boxedFree : (infoId : Nat) → (gtype : Nat) → (boxed : Nat) → IdleTask
deriving DecidableEq

/-- The external GLib type system, treated as an opaque collaborator:
`instCheck inst t` is `G_TYPE_CHECK_INSTANCE_TYPE(inst, t)` (subtype
matching included, as GLib defines it); `initiallyUnowned g` says whether
instances of `GType` `g` satisfy `G_IS_INITIALLY_UNOWNED`;
`newFloating g` says whether a freshly constructed instance of `g` is
floating; `typeName` is `g_type_name`; `typeOfInst` is
`G_TYPE_FROM_INSTANCE`. -/
structure TypeSys where
  instCheck : Nat → Nat → Bool
  initiallyUnowned : Nat → Bool
  newFloating : Nat → Bool
  typeName : Nat → String
  typeOfInst : Nat → Nat

/-- The process state visible to `hsgclosure.c`. `env` is whether the
`HASKELL_GI_DEBUG_MEM` environment variable is currently set; `cache` is
the `static int __print_debug_info` of `print_debug_info` (`none` models
`-1`, i.e. not yet initialized). `idle` is the GLib idle queue (FIFO).
`rc h` / `floating h` are the reference count and floating flag of the
object at handle `h`; `next` is the next fresh object address and
`nextInfo` the next fresh `BoxedFreeInfo` address, with `infos` the list
of currently allocated `BoxedFreeInfo` records. The four `...Calls`
lists are append-only logs of every call made to the corresponding
external primitive. -/
structure Mem where
  env : Bool
  cache : Option Bool
  idle : List IdleTask
  rc : Nat → Nat
  floating : Nat → Bool
  next : Nat
  nextInfo : Nat
  infos : List Nat
  unrefCalls : List Nat
  boxedFreeCalls : List (Nat × Nat)
  sinkCalls : List Nat
  funPtrFreeCalls : List Nat

/-- A fresh process state: no environment toggle, debug cache still `-1`,
empty idle queue, no objects, no allocations, empty call logs. Object
addresses start at `1` so that `0` remains NULL. -/
def Mem.init : Mem :=
  { env := false
  , cache := none
  , idle := []
  , rc := fun _ => 0
  , floating := fun _ => false
  , next := 1
  , nextInfo := 1
  , infos := []
  , unrefCalls := []
  , boxedFreeCalls := []
  , sinkCalls := []
  , funPtrFreeCalls := []
  }

/-- `print_debug_info` (hsgclosure.c:14-23): lazily reads
`getenv("HASKELL_GI_DEBUG_MEM") != NULL` into the static cache on first
call, and afterwards returns the cached value without consulting the
environment. Returns the flag together with the updated state. -/
def print_debug_info (s : Mem) : Bool × Mem :=
  match s.cache with
  | some b => (b, s)
  | none => (s.env, { s with cache := some s.env })

/-- `dbg_log_with_len` (hsgclosure.c:54-61): if the debug flag is set,
locks the log mutex, `fwrite`s the first `len` bytes of `msg` to
`stderr`, and unlocks; otherwise does nothing. -/
def dbg_log_with_len (msg : String) (len : Nat) (s : Mem) : Mem × List Event :=
  let (dbg, s1) := print_debug_info s
  if dbg then (s1, [Event.lock, Event.write (msg.take len), Event.unlock])
  else (s1, [])

/-- `dbg_log` (hsgclosure.c:66-79): if the debug flag is set, locks the
log mutex, `vfprintf`s the (already formatted, in this model) message to
`stderr`, and unlocks; otherwise does nothing. -/
def dbg_log (msg : String) (s : Mem) : Mem × List Event :=
  let (dbg, s1) := print_debug_info s
  if dbg then (s1, [Event.lock, Event.write msg, Event.unlock])
  else (s1, [])

/-- `check_object_type` (hsgclosure.c:81-93): for a non-NULL `inst`
returns `!!G_TYPE_CHECK_INSTANCE_TYPE(inst, gtype)`; for NULL logs a
diagnostic (debug-gated) and returns `0`. -/
def check_object_type (ts : TypeSys) (inst : Nat) (gtype : Nat) (s : Mem) :
    Bool × Mem × List Event :=
  if inst ≠ 0 then
    (ts.instCheck inst gtype, s, [])
  else
    let (s1, ev) := dbg_log ("Check failed: got a null pointer\n") s
    (false, s1, ev)

/-- External primitive `g_object_unref`: decrements the reference count
of `obj` and records the call in the `unrefCalls` log. -/
def g_object_unref (obj : Nat) (s : Mem) : Mem :=
  { s with rc := fun h => if h = obj then s.rc h - 1 else s.rc h
         , unrefCalls := s.unrefCalls ++ [obj] }

/-- External primitive `g_boxed_free`: frees the boxed value `boxed` of
type `gtype`; recorded in the `boxedFreeCalls` log. -/
def g_boxed_free (gtype : Nat) (boxed : Nat) (s : Mem) : Mem :=
  { s with boxedFreeCalls := s.boxedFreeCalls ++ [(gtype, boxed)] }

/-- External primitive `g_object_ref_sink`: if `obj` is floating, clears
the floating flag and takes ownership of that reference (count
unchanged); otherwise adds a new reference. Recorded in `sinkCalls`. -/
def g_object_ref_sink (obj : Nat) (s : Mem) : Mem :=
  if s.floating obj then
    { s with floating := fun h => if h = obj then false else s.floating h
           , sinkCalls := s.sinkCalls ++ [obj] }
  else
    { s with rc := fun h => if h = obj then s.rc h + 1 else s.rc h
           , sinkCalls := s.sinkCalls ++ [obj] }

/-- External primitive `g_idle_add`: appends a one-shot task to the main
loop's idle queue (FIFO submission order). -/
def g_idle_add (t : IdleTask) (s : Mem) : Mem :=
  { s with idle := s.idle ++ [t] }

/-- External primitive `g_free` applied to a `BoxedFreeInfo` record:
deallocates the record with the given id. -/
def g_free_info (infoId : Nat) (s : Mem) : Mem :=
  { s with infos := s.infos.erase infoId }

/-- External primitive `freeHaskellFunctionPtr` from the GHC RTS,
documented to crash on a NULL argument (modelled as `none`); on a
non-NULL argument it releases the trampoline, recorded in
`funPtrFreeCalls`. -/
def freeHaskellFunctionPtr (ptr : Nat) (s : Mem) : Option Mem :=
  if ptr = 0 then none
  else some { s with funPtrFreeCalls := s.funPtrFreeCalls ++ [ptr] }

/-- `main_loop_boxed_free_helper` (hsgclosure.c:103-125): the idle
callback for boxed values. If the debug flag is set it locks the mutex
and emits two `dbg_log` lines; it then calls `g_boxed_free` on the
`(gtype, boxed)` pair stored in the `BoxedFreeInfo`, emits the closing
`dbg_log` line and unlocks (again debug-gated), `g_free`s the info
record, and returns `FALSE` ("do not invoke again"). -/
def main_loop_boxed_free_helper (ts : TypeSys) (infoId : Nat) (gtype : Nat)
    (boxed : Nat) (s : Mem) : Bool × Mem × List Event :=
  let (dbg, s1) := print_debug_info s
  let (s2, ev1) :=
    if dbg then
      let (sa, e1) := dbg_log ("Freeing a boxed object at " ++ toString boxed
        ++ " from idle callback [thread: main-loop]\n") s1
      let (sb, e2) := dbg_log ("\tIt is of type " ++ ts.typeName gtype ++ "\n") sa
      (sb, [Event.lock] ++ e1 ++ e2)
    else (s1, [])
  let s3 := g_boxed_free gtype boxed s2
  let (dbg2, s4) := print_debug_info s3
  let (s5, ev2) :=
    if dbg2 then
      let (sa, e3) := dbg_log ("\tdone freeing " ++ toString boxed ++ ".\n") s4
      (sa, e3 ++ [Event.unlock])
    else (s4, [])
  let s6 := g_free_info infoId s5
  (false, s6, ev1 ++ ev2)

/-- `boxed_free_helper` (hsgclosure.c:127-135): `g_malloc`s a fresh
`BoxedFreeInfo` holding exactly `(gtype, boxed)` and submits
`main_loop_boxed_free_helper` with it to the idle queue. No freeing
happens synchronously. -/
def boxed_free_helper (gtype : Nat) (boxed : Nat) (s : Mem) : Mem :=
  let infoId := s.nextInfo
  let s1 := { s with nextInfo := s.nextInfo + 1, infos := s.infos ++ [infoId] }
  g_idle_add (IdleTask.boxedFree infoId gtype boxed) s1

/-- `dbg_g_object_disown` (hsgclosure.c:137-150): if the debug flag is
set, locks the mutex, logs the handle, its type name and its current
reference count, and unlocks. No other action. -/
def dbg_g_object_disown (ts : TypeSys) (obj : Nat) (s : Mem) : Mem × List Event :=
  let (dbg, s1) := print_debug_info s
  if dbg then
    let (sa, e1) := dbg_log ("Disowning a GObject at " ++ toString obj
      ++ " [thread: caller]\n") s1
    let (sb, e2) := dbg_log ("\tIt is of type "
      ++ ts.typeName (ts.typeOfInst obj) ++ "\n") sa
    let (sc, e3) := dbg_log ("\tIts refcount before disowning is "
      ++ toString (sb.rc obj) ++ "\n") sb
    (sc, [Event.lock] ++ e1 ++ e2 ++ e3 ++ [Event.unlock])
  else (s1, [])

/-- `print_object_dbg_info` (hsgclosure.c:152-161): three `dbg_log`
lines describing the object about to be unreffed. -/
def print_object_dbg_info (ts : TypeSys) (obj : Nat) (s : Mem) : Mem × List Event :=
  let (sa, e1) := dbg_log ("Unref of " ++ toString obj
    ++ " from idle callback [thread: main-loop]\n") s
  let (sb, e2) := dbg_log ("\tIt is of type "
    ++ ts.typeName (ts.typeOfInst obj) ++ "\n") sa
  let (sc, e3) := dbg_log ("\tIts refcount before unref is "
    ++ toString (sb.rc obj) ++ "\n") sb
  (sc, e1 ++ e2 ++ e3)

/-- `g_object_unref_in_main_loop` (hsgclosure.c:169-185): the idle
callback for GObject deletion. If the debug flag is set it locks the
mutex and prints the object info; it then calls `g_object_unref` once on
`obj`, prints the closing line and unlocks (debug-gated), and returns
`FALSE` ("do not invoke again"). -/
def g_object_unref_in_main_loop (ts : TypeSys) (obj : Nat) (s : Mem) :
    Bool × Mem × List Event :=
  let (dbg, s1) := print_debug_info s
  let (s2, ev1) :=
    if dbg then
      let (sa, e1) := print_object_dbg_info ts obj s1
      (sa, [Event.lock] ++ e1)
    else (s1, [])
  let s3 := g_object_unref obj s2
  let (dbg2, s4) := print_debug_info s3
  let (s5, ev2) :=
    if dbg2 then (s4, [Event.write ("\tUnref done\n"), Event.unlock])
    else (s4, [])
  (false, s5, ev1 ++ ev2)

/-- `dbg_g_object_unref` (hsgclosure.c:187-190): submits
`g_object_unref_in_main_loop` for `obj` to the idle queue. No reference
is released synchronously. -/
def dbg_g_object_unref (obj : Nat) (s : Mem) : Mem :=
  g_idle_add (IdleTask.unref obj) s

/-- External primitive `g_object_new_with_properties`: allocates a fresh
object of type `gtype` with one (implicit) reference, floating exactly
when the type constructs floating instances. The property list `names` /
`values` is forwarded opaquely to GLib; property setting has no effect
on ownership and is not modelled further. -/
def g_object_new_with_properties (ts : TypeSys) (gtype : Nat)
    (names : List String) (values : List Nat) (s : Mem) : Nat × Mem :=
  let _ := names
  let _ := values
  let h := s.next
  (h, { s with next := s.next + 1
             , rc := fun x => if x = h then 1 else s.rc x
             , floating := fun x => if x = h then ts.newFloating gtype else s.floating x })

/-- `dbg_g_object_new` (hsgclosure.c:207-257): debug-gated opening log
(lock held across the construction), `g_object_new_with_properties`,
then `g_object_ref_sink` exactly when `G_IS_INITIALLY_UNOWNED(result)`,
then the debug-gated closing log and unlock. Returns the new handle. -/
def dbg_g_object_new (ts : TypeSys) (gtype : Nat) (names : List String)
    (values : List Nat) (s : Mem) : Nat × Mem × List Event :=
  let p := print_debug_info s
  let q :=
    if p.1 then
      let w := dbg_log ("Creating a new GObject of type "
        ++ ts.typeName gtype ++ " [thread: caller]\n") p.2
      (w.1, [Event.lock] ++ w.2)
    else (p.2, ([] : List Event))
  let c := g_object_new_with_properties ts gtype names values q.1
  let s4 := if ts.initiallyUnowned gtype then g_object_ref_sink c.1 c.2 else c.2
  let p2 := print_debug_info s4
  let q2 :=
    if p2.1 then
      let w := dbg_log ("\tdone, got a pointer at "
        ++ toString c.1 ++ "\n") p2.2
      (w.1, w.2 ++ [Event.unlock])
    else (p2.2, ([] : List Event))
  (c.1, q2.1, q.2 ++ q2.2)

/-- `safeFreeFunPtr` (hsgclosure.c:261-265): calls
`freeHaskellFunctionPtr` only when the pointer is non-NULL; on NULL it
does nothing (in particular it does not fault, so the result is always
`some`). -/
def safeFreeFunPtr (ptr : Nat) (s : Mem) : Option Mem :=
  if ptr ≠ 0 then freeHaskellFunctionPtr ptr s else some s

/-- `n` successive calls of `safeFreeFunPtr ptr`, propagating a fault
(`none`) if one ever occurred. -/
def iterSafeFree (n : Nat) (ptr : Nat) (s : Mem) : Option Mem :=
  match n with
  | 0 => some s
  | n + 1 => (safeFreeFunPtr ptr s).bind (iterSafeFree n ptr)

/-- The GLib main loop dispatching one round of the idle queue: each
task's callback runs once, in FIFO order; a callback returning `TRUE`
would be kept for re-invocation (third component), one returning `FALSE`
is removed. Idle callbacks in this file never call `g_idle_add`, so the
queue field itself is left to the caller. -/
def run_tasks (ts : TypeSys) : List IdleTask → Mem → Mem × List Event × List IdleTask
  | [], s => (s, [], [])
  | IdleTask.unref obj :: rest, s =>
    let r := g_object_unref_in_main_loop ts obj s
    let q := run_tasks ts rest r.2.1
    (q.1, r.2.2 ++ q.2.1, (if r.1 then [IdleTask.unref obj] else []) ++ q.2.2)
  | IdleTask.boxedFree i g b :: rest, s =>
    let r := main_loop_boxed_free_helper ts i g b s
    let q := run_tasks ts rest r.2.1
    (q.1, r.2.2 ++ q.2.1, (if r.1 then [IdleTask.boxedFree i g b] else []) ++ q.2.2)

/-- The object handles that a list of idle tasks will pass to
`g_object_unref`, in order. -/
def unrefTargets : List IdleTask → List Nat
  | [] => []
  | IdleTask.unref obj :: rest => obj :: unrefTargets rest
  | IdleTask.boxedFree _ _ _ :: rest => unrefTargets rest

/-- The `(gtype, boxed)` pairs that a list of idle tasks will pass to
`g_boxed_free`, in order. -/
def boxedTargets : List IdleTask → List (Nat × Nat)
  | [] => []
  | IdleTask.unref _ :: rest => boxedTargets rest
  | IdleTask.boxedFree _ g b :: rest => (g, b) :: boxedTargets rest

/-- Lock discipline of an event trace, starting from hold-depth `d`:
every `write` happens at positive depth (i.e. with the mutex held),
every `unlock` matches an earlier `lock` (depth may dip to zero only
via unlock), and the trace ends with the mutex fully released. The
positive depths model re-acquisition of the recursive `log_mutex`. -/
def balancedFrom (d : Nat) : List Event → Bool
  | [] => d == 0
  | Event.lock :: r => balancedFrom (d + 1) r
  | Event.unlock :: r => decide (0 < d) && balancedFrom (d - 1) r
  | Event.write _ :: r => decide (0 < d) && balancedFrom d r

/-- The debug-independent part of the state: everything except the
cached debug flag (and the environment it mirrors). Two runs whose
cores agree have the same reference counts, queues, allocations and
primitive-call logs. -/
def Mem.core (s : Mem) :
    (Nat → Nat) × (Nat → Bool) × List IdleTask × List Nat × Nat × Nat ×
      List Nat × List (Nat × Nat) × List Nat × List Nat :=
  (s.rc, s.floating, s.idle, s.infos, s.next, s.nextInfo,
    s.unrefCalls, s.boxedFreeCalls, s.sinkCalls, s.funPtrFreeCalls)

/-- A concrete type system used to instantiate theorems with hypotheses:
type `5` is initially unowned and constructs floating; instance checks
compare parities. -/
def tsW : TypeSys :=
  { instCheck := fun i t => i % 2 == t % 2
  , initiallyUnowned := fun g => g == 5
  , newFloating := fun g => g == 5
  , typeName := fun _ => "T"
  , typeOfInst := fun _ => 5 }

/-! ## Helper lemmas -/

/-- Effect of one run of the `g_object_unref_in_main_loop` idle callback,
on any state: it returns `FALSE`, calls `g_object_unref` on exactly its
argument once, and touches no other component of the state (besides the
debug-flag cache). -/
theorem helper_unref_loop (ts : TypeSys) (obj : Nat) (s : Mem) :
    (g_object_unref_in_main_loop ts obj s).1 = false ∧
    (g_object_unref_in_main_loop ts obj s).2.1.unrefCalls = s.unrefCalls ++ [obj] ∧
    (g_object_unref_in_main_loop ts obj s).2.1.rc
      = (fun h => if h = obj then s.rc h - 1 else s.rc h) ∧
    (g_object_unref_in_main_loop ts obj s).2.1.floating = s.floating ∧
    (g_object_unref_in_main_loop ts obj s).2.1.idle = s.idle ∧
    (g_object_unref_in_main_loop ts obj s).2.1.infos = s.infos ∧
    (g_object_unref_in_main_loop ts obj s).2.1.boxedFreeCalls = s.boxedFreeCalls ∧
    (g_object_unref_in_main_loop ts obj s).2.1.sinkCalls = s.sinkCalls ∧
    (g_object_unref_in_main_loop ts obj s).2.1.funPtrFreeCalls = s.funPtrFreeCalls ∧
    (g_object_unref_in_main_loop ts obj s).2.1.next = s.next ∧
    (g_object_unref_in_main_loop ts obj s).2.1.nextInfo = s.nextInfo := by
  rcases s with ⟨env, cache, idle, rc, fl, nx, ni, infos, uc, bc, sc, fc⟩
  rcases cache with _ | b
  · cases env <;>
      simp [g_object_unref_in_main_loop, print_debug_info, print_object_dbg_info,
            dbg_log, g_object_unref]
  · cases b <;>
      simp [g_object_unref_in_main_loop, print_debug_info, print_object_dbg_info,
            dbg_log, g_object_unref]

/-- Effect of one run of the `main_loop_boxed_free_helper` idle callback,
on any state: it returns `FALSE`, calls `g_boxed_free` on exactly its
`(gtype, boxed)` pair once, `g_free`s its `BoxedFreeInfo` record, and
touches no other component of the state (besides the debug-flag
cache). -/
theorem helper_boxed_loop (ts : TypeSys) (infoId gtype boxed : Nat) (s : Mem) :
    (main_loop_boxed_free_helper ts infoId gtype boxed s).1 = false ∧
    (main_loop_boxed_free_helper ts infoId gtype boxed s).2.1.boxedFreeCalls
      = s.boxedFreeCalls ++ [(gtype, boxed)] ∧
    (main_loop_boxed_free_helper ts infoId gtype boxed s).2.1.infos
      = s.infos.erase infoId ∧
    (main_loop_boxed_free_helper ts infoId gtype boxed s).2.1.rc = s.rc ∧
    (main_loop_boxed_free_helper ts infoId gtype boxed s).2.1.floating = s.floating ∧
    (main_loop_boxed_free_helper ts infoId gtype boxed s).2.1.idle = s.idle ∧
    (main_loop_boxed_free_helper ts infoId gtype boxed s).2.1.unrefCalls = s.unrefCalls ∧
    (main_loop_boxed_free_helper ts infoId gtype boxed s).2.1.sinkCalls = s.sinkCalls ∧
    (main_loop_boxed_free_helper ts infoId gtype boxed s).2.1.funPtrFreeCalls
      = s.funPtrFreeCalls ∧
    (main_loop_boxed_free_helper ts infoId gtype boxed s).2.1.next = s.next ∧
    (main_loop_boxed_free_helper ts infoId gtype boxed s).2.1.nextInfo = s.nextInfo := by
  rcases s with ⟨env, cache, idle, rc, fl, nx, ni, infos, uc, bc, sc, fc⟩
  rcases cache with _ | b
  · cases env <;>
      simp [main_loop_boxed_free_helper, print_debug_info, dbg_log,
            g_boxed_free, g_free_info]
  · cases b <;>
      simp [main_loop_boxed_free_helper, print_debug_info, dbg_log,
            g_boxed_free, g_free_info]

/-- `unrefTargets` distributes over list append. -/
theorem helper_unrefTargets_append (l1 l2 : List IdleTask) :
    unrefTargets (l1 ++ l2) = unrefTargets l1 ++ unrefTargets l2 := by
  induction l1 with
  | nil => simp [unrefTargets]
  | cons t rest ih => cases t <;> simp [unrefTargets, ih]

/-- `boxedTargets` distributes over list append. -/
theorem helper_boxedTargets_append (l1 l2 : List IdleTask) :
    boxedTargets (l1 ++ l2) = boxedTargets l1 ++ boxedTargets l2 := by
  induction l1 with
  | nil => simp [boxedTargets]
  | cons t rest ih => cases t <;> simp [boxedTargets, ih]

/-- Dispatching a round of the idle queue calls `g_object_unref` exactly
on the queue's unref targets in order, calls `g_boxed_free` exactly on
the queue's boxed targets in order, and reschedules nothing (every
callback returns `FALSE`). -/
theorem helper_run_tasks (ts : TypeSys) (l : List IdleTask) (s : Mem) :
    (run_tasks ts l s).1.unrefCalls = s.unrefCalls ++ unrefTargets l ∧
    (run_tasks ts l s).1.boxedFreeCalls = s.boxedFreeCalls ++ boxedTargets l ∧
    (run_tasks ts l s).2.2 = [] := by
  induction l generalizing s with
  | nil => simp [run_tasks, unrefTargets, boxedTargets]
  | cons t rest ih =>
    cases t with
    | unref obj =>
      have h := helper_unref_loop ts obj s
      have hr := ih (g_object_unref_in_main_loop ts obj s).2.1
      simp only [run_tasks]
      refine ⟨?_, ?_, ?_⟩
      · rw [hr.1, h.2.1]
        simp [unrefTargets]
      · rw [hr.2.1, h.2.2.2.2.2.2.1]
        simp [boxedTargets]
      · rw [h.1]
        simp [hr.2.2]
    | boxedFree i g b =>
      have h := helper_boxed_loop ts i g b s
      have hr := ih (main_loop_boxed_free_helper ts i g b s).2.1
      simp only [run_tasks]
      refine ⟨?_, ?_, ?_⟩
      · rw [hr.1, h.2.2.2.2.2.2.1]
        simp [unrefTargets]
      · rw [hr.2.1, h.2.1]
        simp [boxedTargets]
      · rw [h.1]
        simp [hr.2.2]

/-! ## Claim theorems -/

/-- C1: `dbg_g_object_unref` releases no reference synchronously — its
only effect is appending one `g_object_unref_in_main_loop` task for its
handle to the idle queue. When that task runs (on any state, i.e. at any
later time), it calls `g_object_unref` on that handle exactly once
(appending exactly one entry to the `unrefCalls` log, decrementing the
handle's reference count by one) and returns `FALSE` ("do not
reschedule"). Consequently, dispatching the queue after a submission
invokes the unref primitive exactly once for that request. -/
theorem claim_C1_deferred_unref_exactly_once (ts : TypeSys) (obj : Nat) (s : Mem) :
    dbg_g_object_unref obj s = { s with idle := s.idle ++ [IdleTask.unref obj] } ∧
    (∀ t : Mem,
      (g_object_unref_in_main_loop ts obj t).1 = false ∧
      (g_object_unref_in_main_loop ts obj t).2.1.unrefCalls = t.unrefCalls ++ [obj] ∧
      (g_object_unref_in_main_loop ts obj t).2.1.rc obj = t.rc obj - 1) ∧
    (run_tasks ts (dbg_g_object_unref obj s).idle (dbg_g_object_unref obj s)).1.unrefCalls
      = s.unrefCalls ++ unrefTargets s.idle ++ [obj] ∧
    (run_tasks ts (dbg_g_object_unref obj s).idle (dbg_g_object_unref obj s)).2.2 = [] := by
  refine ⟨rfl, ?_, ?_, ?_⟩
  · intro t
    have h := helper_unref_loop ts obj t
    exact ⟨h.1, h.2.1, by rw [h.2.2.1]; simp⟩
  · have h := helper_run_tasks ts (dbg_g_object_unref obj s).idle (dbg_g_object_unref obj s)
    rw [h.1]
    show s.unrefCalls ++ unrefTargets (s.idle ++ [IdleTask.unref obj]) = _
    rw [helper_unrefTargets_append]
    simp [unrefTargets]
  · exact (helper_run_tasks ts _ _).2.2

/-- C2: `boxed_free_helper` frees nothing synchronously: it allocates a
fresh `BoxedFreeInfo` record holding exactly the pair `(gtype, boxed)`
and appends one task carrying it to the idle queue. When that task runs
(on any state), it calls `g_boxed_free` exactly once on exactly that
pair, erases the info record, and returns `FALSE`; in particular, after
running the task submitted here the record is destroyed (given that the
starting state's allocated record ids are below the allocation
counter). -/
theorem claim_C2_boxed_free_deferred (ts : TypeSys) (gtype boxed : Nat) (s : Mem)
    (hwf : ∀ i ∈ s.infos, i < s.nextInfo) :
    boxed_free_helper gtype boxed s
      = { s with nextInfo := s.nextInfo + 1
               , infos := s.infos ++ [s.nextInfo]
               , idle := s.idle ++ [IdleTask.boxedFree s.nextInfo gtype boxed] } ∧
    (boxed_free_helper gtype boxed s).boxedFreeCalls = s.boxedFreeCalls ∧
    (∀ t : Mem,
      (main_loop_boxed_free_helper ts s.nextInfo gtype boxed t).1 = false ∧
      (main_loop_boxed_free_helper ts s.nextInfo gtype boxed t).2.1.boxedFreeCalls
        = t.boxedFreeCalls ++ [(gtype, boxed)] ∧
      (main_loop_boxed_free_helper ts s.nextInfo gtype boxed t).2.1.infos
        = t.infos.erase s.nextInfo) ∧
    (main_loop_boxed_free_helper ts s.nextInfo gtype boxed
        (boxed_free_helper gtype boxed s)).2.1.boxedFreeCalls
      = s.boxedFreeCalls ++ [(gtype, boxed)] ∧
    s.nextInfo ∉ (main_loop_boxed_free_helper ts s.nextInfo gtype boxed
        (boxed_free_helper gtype boxed s)).2.1.infos := by
  have hni : s.nextInfo ∉ s.infos := fun hmem => lt_irrefl _ (hwf _ hmem)
  have hb : boxed_free_helper gtype boxed s
      = { s with nextInfo := s.nextInfo + 1
               , infos := s.infos ++ [s.nextInfo]
               , idle := s.idle ++ [IdleTask.boxedFree s.nextInfo gtype boxed] } := rfl
  have hrun := helper_boxed_loop ts s.nextInfo gtype boxed (boxed_free_helper gtype boxed s)
  have herase : (s.infos ++ [s.nextInfo]).erase s.nextInfo = s.infos := by
    rw [List.erase_append_right _ hni, List.erase_cons_head]
    simp
  refine ⟨hb, rfl, ?_, ?_, ?_⟩
  · intro t
    have h := helper_boxed_loop ts s.nextInfo gtype boxed t
    exact ⟨h.1, h.2.1, h.2.2.1⟩
  · rw [hrun.2.1, hb]
  · rw [hrun.2.2.1, hb]
    simpa [herase] using hni

/-- C2 witness: instantiation at the fresh state (empty allocation
table), discharging the well-formedness hypothesis. -/
theorem claim_C2_boxed_free_deferred_witness :
    (∀ i ∈ Mem.init.infos, i < Mem.init.nextInfo) ∧
    Mem.init.nextInfo ∉ (main_loop_boxed_free_helper tsW Mem.init.nextInfo 7 9
        (boxed_free_helper 7 9 Mem.init)).2.1.infos :=
  ⟨by simp [Mem.init],
   (claim_C2_boxed_free_deferred tsW 7 9 Mem.init (by simp [Mem.init])).2.2.2.2⟩

/-- C4: `check_object_type` is total (a Lean function) and its result is
`false` on the NULL handle and exactly the native instance-type check
(subtype matching as GLib defines it) on any non-NULL handle. -/
theorem claim_C4_check_object_type_total (ts : TypeSys) (inst gtype : Nat) (s : Mem) :
    (check_object_type ts inst gtype s).1
      = (if inst = 0 then false else ts.instCheck inst gtype) := by
  rcases s with ⟨env, cache, idle, rc, fl, nx, ni, infos, uc, bc, sc, fc⟩
  by_cases h : inst = 0
  · rcases cache with _ | b
    · cases env <;> simp [check_object_type, dbg_log, print_debug_info, h]
    · cases b <;> simp [check_object_type, dbg_log, print_debug_info, h]
  · simp [check_object_type, h]

/-- C5: `safeFreeFunPtr` is total: on the NULL pointer it is a no-op
(never faults, i.e. never `none`), for any number of repeated calls; on
a non-NULL pointer it invokes `freeHaskellFunctionPtr` on that pointer
(recording exactly one call). -/
theorem claim_C5_safeFreeFunPtr_total (ptr : Nat) (s : Mem) (n : Nat) :
    iterSafeFree n 0 s = some s ∧
    safeFreeFunPtr 0 s = some s ∧
    (ptr ≠ 0 → safeFreeFunPtr ptr s
      = some { s with funPtrFreeCalls := s.funPtrFreeCalls ++ [ptr] }) := by
  refine ⟨?_, by simp [safeFreeFunPtr], ?_⟩
  · induction n with
    | zero => simp [iterSafeFree]
    | succ k ih => simp [iterSafeFree, safeFreeFunPtr, ih]
  · intro h
    simp [safeFreeFunPtr, freeHaskellFunctionPtr, h]

/-- C5 witness: three repeated NULL calls are a no-op, and a non-NULL
call releases the pointer, at concrete inputs. -/
theorem claim_C5_safeFreeFunPtr_total_witness :
    (3 ≠ 0) ∧
    iterSafeFree 3 0 Mem.init = some Mem.init ∧
    safeFreeFunPtr 3 Mem.init
      = some { Mem.init with funPtrFreeCalls := Mem.init.funPtrFreeCalls ++ [3] } :=
  ⟨by decide,
   (claim_C5_safeFreeFunPtr_total 3 Mem.init 3).1,
   (claim_C5_safeFreeFunPtr_total 3 Mem.init 3).2.2 (by decide)⟩

/-- C6: the debug flag is read from the environment at most once and is
immutable afterwards: a second call to `print_debug_info` returns the
same value as the first no matter how the environment was mutated in
between; after the first call the cache holds that value; a first call
on an uninitialized cache returns the environment value; and a call on
an initialized cache returns the cached value without changing the state
(so the environment is consulted only on the first call). -/
theorem claim_C6_debug_flag_read_once (s : Mem) (e : Bool) :
    (print_debug_info { (print_debug_info s).2 with env := e }).1
      = (print_debug_info s).1 ∧
    (print_debug_info s).2.cache = some (print_debug_info s).1 ∧
    (print_debug_info { (print_debug_info s).2 with env := e }).2.cache
      = some (print_debug_info s).1 ∧
    (s.cache = none → (print_debug_info s).1 = s.env) ∧
    (∀ b, s.cache = some b → (print_debug_info s).1 = b ∧ (print_debug_info s).2 = s) := by
  rcases s with ⟨env, cache, idle, rc, fl, nx, ni, infos, uc, bc, sc, fc⟩
  rcases cache with _ | b
  · simp [print_debug_info]
  · simp [print_debug_info]

/-- C6 witness: instantiation at the fresh state (uninitialized cache)
with the environment flipped to `true` between the two calls. -/
theorem claim_C6_debug_flag_read_once_witness :
    (Mem.init.cache = none) ∧
    (print_debug_info { (print_debug_info Mem.init).2 with env := true }).1
      = (print_debug_info Mem.init).1 ∧
    (print_debug_info Mem.init).1 = Mem.init.env :=
  ⟨rfl, (claim_C6_debug_flag_read_once Mem.init true).1,
   (claim_C6_debug_flag_read_once Mem.init true).2.2.2.1 rfl⟩

/-- C7: when the environment toggle is absent (and hence the cache, if
already initialized, holds `false`), both logging operations write
nothing: their event traces are empty, for every message and length. -/
theorem claim_C7_silent_when_toggle_unset (msg : String) (len : Nat) (s : Mem)
    (henv : s.env = false) (hc : s.cache = none ∨ s.cache = some false) :
    (dbg_log_with_len msg len s).2 = [] ∧ (dbg_log msg s).2 = [] := by
  rcases hc with hc | hc <;>
    simp [dbg_log_with_len, dbg_log, print_debug_info, hc, henv]

/-- C7 witness: instantiation at the fresh state (toggle absent, cache
uninitialized). -/
theorem claim_C7_silent_when_toggle_unset_witness :
    (Mem.init.env = false) ∧ (Mem.init.cache = none ∨ Mem.init.cache = some false) ∧
    (dbg_log_with_len ("hello") 5 Mem.init).2 = [] ∧
    (dbg_log ("hello") Mem.init).2 = [] :=
  ⟨rfl, Or.inl rfl,
   (claim_C7_silent_when_toggle_unset ("hello") 5 Mem.init rfl (Or.inl rfl)).1,
   (claim_C7_silent_when_toggle_unset ("hello") 5 Mem.init rfl (Or.inl rfl)).2⟩

/-- C8: `dbg_g_object_disown` mutates no reference count and nothing
else in the object/queue/allocation state: the resulting state is
exactly the input state after the (idempotent) lazy initialization of
the debug-flag cache, so reference counts, floating flags, the idle
queue, allocations and all primitive-call logs are unchanged; its only
other output is the diagnostic event trace. -/
theorem claim_C8_disown_is_frame (ts : TypeSys) (obj : Nat) (s : Mem) :
    (dbg_g_object_disown ts obj s).1 = (print_debug_info s).2 ∧
    (dbg_g_object_disown ts obj s).1.rc = s.rc ∧
    (dbg_g_object_disown ts obj s).1.rc obj = s.rc obj ∧
    (dbg_g_object_disown ts obj s).1.floating = s.floating ∧
    (dbg_g_object_disown ts obj s).1.idle = s.idle ∧
    (dbg_g_object_disown ts obj s).1.infos = s.infos ∧
    (dbg_g_object_disown ts obj s).1.unrefCalls = s.unrefCalls ∧
    (dbg_g_object_disown ts obj s).1.boxedFreeCalls = s.boxedFreeCalls ∧
    (dbg_g_object_disown ts obj s).1.sinkCalls = s.sinkCalls ∧
    (dbg_g_object_disown ts obj s).1.funPtrFreeCalls = s.funPtrFreeCalls ∧
    (dbg_g_object_disown ts obj s).1.next = s.next ∧
    (dbg_g_object_disown ts obj s).1.nextInfo = s.nextInfo := by
  rcases s with ⟨env, cache, idle, rc, fl, nx, ni, infos, uc, bc, sc, fc⟩
  rcases cache with _ | b
  · cases env <;> simp [dbg_g_object_disown, print_debug_info, dbg_log]
  · cases b <;> simp [dbg_g_object_disown, print_debug_info, dbg_log]

/-- C3: after a successful `dbg_g_object_new` the returned handle (the
freshly constructed object) is never floating and carries exactly one
caller-owned counted reference: for an initially-unowned type the
floating reference is sunk into a counted one (`g_object_ref_sink` is
invoked exactly then), otherwise the implicit construction reference is
taken over with no reference-count change. The count on return is `1`
plus the one reference the native system itself retains in the
"initially unowned but constructed already-sunk" case. Hypothesis: only
initially-unowned types construct floating references (a GLib
invariant). -/
theorem claim_C3_new_never_floating_one_ref (ts : TypeSys) (gtype : Nat)
    (names : List String) (values : List Nat) (s : Mem)
    (hfl : ts.newFloating gtype = true → ts.initiallyUnowned gtype = true) :
    (dbg_g_object_new ts gtype names values s).1 = s.next ∧
    (dbg_g_object_new ts gtype names values s).2.1.floating s.next = false ∧
    (dbg_g_object_new ts gtype names values s).2.1.rc s.next
      = (if ts.initiallyUnowned gtype = true ∧ ts.newFloating gtype = false
          then 1 else 0) + 1 ∧
    (dbg_g_object_new ts gtype names values s).2.1.sinkCalls
      = s.sinkCalls ++ (if ts.initiallyUnowned gtype = true then [s.next] else []) := by
  rcases s with ⟨env, cache, idle, rc, fl, nx, ni, infos, uc, bc, sc, fc⟩
  rcases hiu : ts.initiallyUnowned gtype with _ | _
  · have hnf : ts.newFloating gtype = false := by
      rcases h : ts.newFloating gtype with _ | _
      · rfl
      · rw [hfl h] at hiu; exact hiu.symm ▸ rfl
    rcases cache with _ | b
    · cases env <;>
        simp [dbg_g_object_new, g_object_new_with_properties, g_object_ref_sink,
              print_debug_info, dbg_log, hiu, hnf]
    · cases b <;>
        simp [dbg_g_object_new, g_object_new_with_properties, g_object_ref_sink,
              print_debug_info, dbg_log, hiu, hnf]
  · rcases hnf : ts.newFloating gtype with _ | _
    · rcases cache with _ | b
      · cases env <;>
          simp [dbg_g_object_new, g_object_new_with_properties, g_object_ref_sink,
                print_debug_info, dbg_log, hiu, hnf]
      · cases b <;>
          simp [dbg_g_object_new, g_object_new_with_properties, g_object_ref_sink,
                print_debug_info, dbg_log, hiu, hnf]
    · rcases cache with _ | b
      · cases env <;>
          simp [dbg_g_object_new, g_object_new_with_properties, g_object_ref_sink,
                print_debug_info, dbg_log, hiu, hnf]
      · cases b <;>
          simp [dbg_g_object_new, g_object_new_with_properties, g_object_ref_sink,
                print_debug_info, dbg_log, hiu, hnf]

/-- C3 witness: instantiation at the fresh state with the concrete type
system `tsW`, for the initially-unowned floating type `5` (discharging
the floating-implies-unowned hypothesis). -/
theorem claim_C3_new_never_floating_one_ref_witness :
    (tsW.newFloating 5 = true → tsW.initiallyUnowned 5 = true) ∧
    (dbg_g_object_new tsW 5 [] [] Mem.init).2.1.floating Mem.init.next = false ∧
    (dbg_g_object_new tsW 5 [] [] Mem.init).2.1.rc Mem.init.next = 1 :=
  ⟨fun _ => by decide,
   (claim_C3_new_never_floating_one_ref tsW 5 [] [] Mem.init (fun _ => by decide)).2.1,
   by
     have h := (claim_C3_new_never_floating_one_ref tsW 5 [] [] Mem.init
       (fun _ => by decide)).2.2.1
     simpa [tsW] using h⟩

/-- The trace of `dbg_log_with_len` obeys the lock discipline. -/
theorem helper_bal_log_with_len (msg : String) (len : Nat) (s : Mem) :
    balancedFrom 0 (dbg_log_with_len msg len s).2 = true := by
  rcases s with ⟨env, cache, idle, rc, fl, nx, ni, infos, uc, bc, sc, fc⟩
  rcases cache with _ | b
  · cases env <;> simp [dbg_log_with_len, print_debug_info, balancedFrom]
  · cases b <;> simp [dbg_log_with_len, print_debug_info, balancedFrom]

/-- The trace of `dbg_log` obeys the lock discipline. -/
theorem helper_bal_log (msg : String) (s : Mem) :
    balancedFrom 0 (dbg_log msg s).2 = true := by
  rcases s with ⟨env, cache, idle, rc, fl, nx, ni, infos, uc, bc, sc, fc⟩
  rcases cache with _ | b
  · cases env <;> simp [dbg_log, print_debug_info, balancedFrom]
  · cases b <;> simp [dbg_log, print_debug_info, balancedFrom]

/-- The trace of `check_object_type` obeys the lock discipline. -/
theorem helper_bal_check (ts : TypeSys) (inst gtype : Nat) (s : Mem) :
    balancedFrom 0 (check_object_type ts inst gtype s).2.2 = true := by
  rcases s with ⟨env, cache, idle, rc, fl, nx, ni, infos, uc, bc, sc, fc⟩
  by_cases hin : inst = 0
  · rcases cache with _ | b
    · cases env <;>
        simp [check_object_type, dbg_log, print_debug_info, balancedFrom, hin]
    · cases b <;>
        simp [check_object_type, dbg_log, print_debug_info, balancedFrom, hin]
  · simp [check_object_type, hin, balancedFrom]

/-- The trace of `main_loop_boxed_free_helper` obeys the lock
discipline. -/
theorem helper_bal_boxed (ts : TypeSys) (infoId gtype boxed : Nat) (s : Mem) :
    balancedFrom 0 (main_loop_boxed_free_helper ts infoId gtype boxed s).2.2 = true := by
  rcases s with ⟨env, cache, idle, rc, fl, nx, ni, infos, uc, bc, sc, fc⟩
  rcases cache with _ | b
  · cases env <;>
      simp [main_loop_boxed_free_helper, dbg_log, print_debug_info,
            g_boxed_free, g_free_info, balancedFrom]
  · cases b <;>
      simp [main_loop_boxed_free_helper, dbg_log, print_debug_info,
            g_boxed_free, g_free_info, balancedFrom]

/-- The trace of `dbg_g_object_disown` obeys the lock discipline. -/
theorem helper_bal_disown (ts : TypeSys) (obj : Nat) (s : Mem) :
    balancedFrom 0 (dbg_g_object_disown ts obj s).2 = true := by
  rcases s with ⟨env, cache, idle, rc, fl, nx, ni, infos, uc, bc, sc, fc⟩
  rcases cache with _ | b
  · cases env <;>
      simp [dbg_g_object_disown, dbg_log, print_debug_info, balancedFrom]
  · cases b <;>
      simp [dbg_g_object_disown, dbg_log, print_debug_info, balancedFrom]

/-- The trace of `g_object_unref_in_main_loop` obeys the lock
discipline. -/
theorem helper_bal_unref (ts : TypeSys) (obj : Nat) (s : Mem) :
    balancedFrom 0 (g_object_unref_in_main_loop ts obj s).2.2 = true := by
  rcases s with ⟨env, cache, idle, rc, fl, nx, ni, infos, uc, bc, sc, fc⟩
  rcases cache with _ | b
  · cases env <;>
      simp [g_object_unref_in_main_loop, print_object_dbg_info, dbg_log,
            print_debug_info, g_object_unref, balancedFrom]
  · cases b <;>
      simp [g_object_unref_in_main_loop, print_object_dbg_info, dbg_log,
            print_debug_info, g_object_unref, balancedFrom]

/-- The trace of `dbg_g_object_new` obeys the lock discipline. -/
theorem helper_bal_new (ts : TypeSys) (gtype : Nat) (names : List String)
    (values : List Nat) (s : Mem) :
    balancedFrom 0 (dbg_g_object_new ts gtype names values s).2.2 = true := by
  rcases s with ⟨env, cache, idle, rc, fl, nx, ni, infos, uc, bc, sc, fc⟩
  rcases hiu : ts.initiallyUnowned gtype with _ | _ <;>
  rcases hnf : ts.newFloating gtype with _ | _
  all_goals rcases cache with _ | b
  all_goals try (cases env <;>
    simp [dbg_g_object_new, g_object_new_with_properties, g_object_ref_sink,
          print_debug_info, dbg_log, balancedFrom, hiu, hnf])
  all_goals cases b <;>
    simp [dbg_g_object_new, g_object_new_with_properties, g_object_ref_sink,
          print_debug_info, dbg_log, balancedFrom, hiu, hnf]

/-- C9: lock discipline of every diagnostic writer: in the event trace
of each operation of the shim, every `stderr` write occurs while the log
mutex is held (at positive hold-depth; the positive depths model
re-acquisition of the recursive `log_mutex`), every unlock matches an
earlier lock, and the trace ends with the mutex fully released — the
`balancedFrom 0` predicate. Under the semantics of a process-wide mutex
this is what keeps a bracketed multi-line record contiguous in the
output when several threads log concurrently. -/
theorem claim_C9_writes_hold_log_mutex (ts : TypeSys) (msg : String)
    (len inst gtype obj infoId boxed : Nat) (names : List String)
    (values : List Nat) (s : Mem) :
    balancedFrom 0 (dbg_log_with_len msg len s).2 = true ∧
    balancedFrom 0 (dbg_log msg s).2 = true ∧
    balancedFrom 0 (check_object_type ts inst gtype s).2.2 = true ∧
    balancedFrom 0 (main_loop_boxed_free_helper ts infoId gtype boxed s).2.2 = true ∧
    balancedFrom 0 (dbg_g_object_disown ts obj s).2 = true ∧
    balancedFrom 0 (g_object_unref_in_main_loop ts obj s).2.2 = true ∧
    balancedFrom 0 (dbg_g_object_new ts gtype names values s).2.2 = true :=
  ⟨helper_bal_log_with_len msg len s, helper_bal_log msg s,
   helper_bal_check ts inst gtype s, helper_bal_boxed ts infoId gtype boxed s,
   helper_bal_disown ts obj s, helper_bal_unref ts obj s,
   helper_bal_new ts gtype names values s⟩

/-- `check_object_type` returns the same value and same debug-independent
state whether the debug flag is cached as enabled or disabled. -/
theorem helper_ni_check (ts : TypeSys) (inst gtype : Nat) (s : Mem) :
    (check_object_type ts inst gtype { s with cache := some true }).1
      = (check_object_type ts inst gtype { s with cache := some false }).1 ∧
    Mem.core (check_object_type ts inst gtype { s with cache := some true }).2.1
      = Mem.core (check_object_type ts inst gtype { s with cache := some false }).2.1 := by
  rcases s with ⟨env, cache, idle, rc, fl, nx, ni, infos, uc, bc, sc, fc⟩
  by_cases hin : inst = 0 <;>
    simp [check_object_type, dbg_log, print_debug_info, Mem.core, hin]

/-- `dbg_g_object_new` returns the same handle and same debug-independent
state whether the debug flag is cached as enabled or disabled. -/
theorem helper_ni_new (ts : TypeSys) (gtype : Nat) (names : List String)
    (values : List Nat) (s : Mem) :
    (dbg_g_object_new ts gtype names values { s with cache := some true }).1
      = (dbg_g_object_new ts gtype names values { s with cache := some false }).1 ∧
    Mem.core (dbg_g_object_new ts gtype names values { s with cache := some true }).2.1
      = Mem.core (dbg_g_object_new ts gtype names values { s with cache := some false }).2.1 := by
  rcases s with ⟨env, cache, idle, rc, fl, nx, ni, infos, uc, bc, sc, fc⟩
  rcases hiu : ts.initiallyUnowned gtype with _ | _ <;>
  rcases hnf : ts.newFloating gtype with _ | _ <;>
    simp [dbg_g_object_new, g_object_new_with_properties, g_object_ref_sink,
          dbg_log, print_debug_info, Mem.core, hiu, hnf]

/-- `dbg_g_object_unref` never reads the debug flag: same
debug-independent state either way. -/
theorem helper_ni_unref_submit (obj : Nat) (s : Mem) :
    Mem.core (dbg_g_object_unref obj { s with cache := some true })
      = Mem.core (dbg_g_object_unref obj { s with cache := some false }) := by
  rcases s with ⟨env, cache, idle, rc, fl, nx, ni, infos, uc, bc, sc, fc⟩
  simp [dbg_g_object_unref, g_idle_add, Mem.core]

/-- `g_object_unref_in_main_loop` returns the same flag and same
debug-independent state whether the debug flag is enabled or not. -/
theorem helper_ni_unref_loop (ts : TypeSys) (obj : Nat) (s : Mem) :
    (g_object_unref_in_main_loop ts obj { s with cache := some true }).1
      = (g_object_unref_in_main_loop ts obj { s with cache := some false }).1 ∧
    Mem.core (g_object_unref_in_main_loop ts obj { s with cache := some true }).2.1
      = Mem.core (g_object_unref_in_main_loop ts obj { s with cache := some false }).2.1 := by
  rcases s with ⟨env, cache, idle, rc, fl, nx, ni, infos, uc, bc, sc, fc⟩
  simp [g_object_unref_in_main_loop, print_object_dbg_info, dbg_log,
        print_debug_info, g_object_unref, Mem.core]

/-- `boxed_free_helper` never reads the debug flag: same
debug-independent state either way. -/
theorem helper_ni_boxed_submit (gtype boxed : Nat) (s : Mem) :
    Mem.core (boxed_free_helper gtype boxed { s with cache := some true })
      = Mem.core (boxed_free_helper gtype boxed { s with cache := some false }) := by
  rcases s with ⟨env, cache, idle, rc, fl, nx, ni, infos, uc, bc, sc, fc⟩
  simp [boxed_free_helper, g_idle_add, Mem.core]

/-- `main_loop_boxed_free_helper` returns the same flag and same
debug-independent state whether the debug flag is enabled or not. -/
theorem helper_ni_boxed_loop (ts : TypeSys) (infoId gtype boxed : Nat) (s : Mem) :
    (main_loop_boxed_free_helper ts infoId gtype boxed { s with cache := some true }).1
      = (main_loop_boxed_free_helper ts infoId gtype boxed { s with cache := some false }).1 ∧
    Mem.core (main_loop_boxed_free_helper ts infoId gtype boxed
        { s with cache := some true }).2.1
      = Mem.core (main_loop_boxed_free_helper ts infoId gtype boxed
        { s with cache := some false }).2.1 := by
  rcases s with ⟨env, cache, idle, rc, fl, nx, ni, infos, uc, bc, sc, fc⟩
  simp [main_loop_boxed_free_helper, dbg_log, print_debug_info,
        g_boxed_free, g_free_info, Mem.core]

/-- `dbg_g_object_disown` has the same debug-independent state whether
the debug flag is enabled or not. -/
theorem helper_ni_disown (ts : TypeSys) (obj : Nat) (s : Mem) :
    Mem.core (dbg_g_object_disown ts obj { s with cache := some true }).1
      = Mem.core (dbg_g_object_disown ts obj { s with cache := some false }).1 := by
  rcases s with ⟨env, cache, idle, rc, fl, nx, ni, infos, uc, bc, sc, fc⟩
  simp [dbg_g_object_disown, dbg_log, print_debug_info, Mem.core]

/-- `safeFreeFunPtr` never reads the debug flag: same result either
way. -/
theorem helper_ni_safeFree (ptr : Nat) (s : Mem) :
    Option.map Mem.core (safeFreeFunPtr ptr { s with cache := some true })
      = Option.map Mem.core (safeFreeFunPtr ptr { s with cache := some false }) := by
  rcases s with ⟨env, cache, idle, rc, fl, nx, ni, infos, uc, bc, sc, fc⟩
  by_cases hp : ptr = 0 <;>
    simp [safeFreeFunPtr, freeHaskellFunctionPtr, Mem.core, hp]

/-- C10: the debug toggle influences only diagnostic output. For every
exported operation — `check_object_type`, `dbg_g_object_new`,
`dbg_g_object_unref` and its deferred callback
`g_object_unref_in_main_loop`, `boxed_free_helper` and its deferred
callback `main_loop_boxed_free_helper`, `dbg_g_object_disown`,
`safeFreeFunPtr` — the returned value and the debug-independent state
(`Mem.core`: reference counts, floating flags, idle queue, allocations
and all primitive-call logs) are identical whether the cached flag is
enabled or disabled. -/
theorem claim_C10_debug_flag_noninterference (ts : TypeSys)
    (inst gtype obj infoId boxed ptr : Nat) (names : List String)
    (values : List Nat) (s : Mem) :
    ((check_object_type ts inst gtype { s with cache := some true }).1
      = (check_object_type ts inst gtype { s with cache := some false }).1 ∧
     Mem.core (check_object_type ts inst gtype { s with cache := some true }).2.1
      = Mem.core (check_object_type ts inst gtype { s with cache := some false }).2.1) ∧
    ((dbg_g_object_new ts gtype names values { s with cache := some true }).1
      = (dbg_g_object_new ts gtype names values { s with cache := some false }).1 ∧
     Mem.core (dbg_g_object_new ts gtype names values { s with cache := some true }).2.1
      = Mem.core (dbg_g_object_new ts gtype names values { s with cache := some false }).2.1) ∧
    Mem.core (dbg_g_object_unref obj { s with cache := some true })
      = Mem.core (dbg_g_object_unref obj { s with cache := some false }) ∧
    ((g_object_unref_in_main_loop ts obj { s with cache := some true }).1
      = (g_object_unref_in_main_loop ts obj { s with cache := some false }).1 ∧
     Mem.core (g_object_unref_in_main_loop ts obj { s with cache := some true }).2.1
      = Mem.core (g_object_unref_in_main_loop ts obj { s with cache := some false }).2.1) ∧
    Mem.core (boxed_free_helper gtype boxed { s with cache := some true })
      = Mem.core (boxed_free_helper gtype boxed { s with cache := some false }) ∧
    ((main_loop_boxed_free_helper ts infoId gtype boxed { s with cache := some true }).1
      = (main_loop_boxed_free_helper ts infoId gtype boxed { s with cache := some false }).1 ∧
     Mem.core (main_loop_boxed_free_helper ts infoId gtype boxed
        { s with cache := some true }).2.1
      = Mem.core (main_loop_boxed_free_helper ts infoId gtype boxed
        { s with cache := some false }).2.1) ∧
    Mem.core (dbg_g_object_disown ts obj { s with cache := some true }).1
      = Mem.core (dbg_g_object_disown ts obj { s with cache := some false }).1 ∧
    Option.map Mem.core (safeFreeFunPtr ptr { s with cache := some true })
      = Option.map Mem.core (safeFreeFunPtr ptr { s with cache := some false }) :=
  ⟨helper_ni_check ts inst gtype s, helper_ni_new ts gtype names values s,
   helper_ni_unref_submit obj s, helper_ni_unref_loop ts obj s,
   helper_ni_boxed_submit gtype boxed s, helper_ni_boxed_loop ts infoId gtype boxed s,
   helper_ni_disown ts obj s, helper_ni_safeFree ptr s⟩
